import Mathlib

/-!
# Surgical Vision — verification of the specified behaviour

Shallow embedding of the Surgical Vision repository (Express/SQLite backend
plus the React viewer components) and proofs about the behaviour its
specification describes.  Machine numbers are modelled as `Nat`/`Int`/`ℚ`
(JavaScript numbers in this code never overflow the ranges used), canvas
real arithmetic as `ℝ`, `Math.random()` as an explicit stream `Nat → ℚ`
consumed in source order, and the SQLite `scans` table as a list of rows.
-/

namespace SurgicalVision

/-- An uploaded multipart file as multer presents it to the route handler
(`req.file`): original client file name, MIME type, and size in bytes. -/
structure UploadedFile where
  originalname : String
  mimetype : String
  size : Nat
deriving DecidableEq, Repr

/-- The stream of `Math.random()` results, consumed left to right; each value
produced by the real generator lies in `[0, 1)`. -/
abbrev Rand := Nat → ℚ

/-- `pat.isPrefixOf s ||` recursion over the tail: JavaScript
`String.prototype.includes` on the underlying character lists. -/
def containsSub (s pat : List Char) : Bool :=
  pat.isPrefixOf s ||
    match s with
    | [] => false
    | _ :: cs => containsSub cs pat

/-- JavaScript `s.includes(sub)`. -/
def strIncludes (s sub : String) : Bool :=
  containsSub s.data sub.data

/-- JavaScript `s.toLowerCase()` on the ASCII fragment this code feeds it
(file names and extensions), character by character. -/
def strToLower (s : String) : String :=
  ⟨s.data.map Char.toLower⟩

/-- JavaScript `s.endsWith(post)` via the underlying character lists. -/
def strEndsWith (s post : String) : Bool :=
  post.data.isSuffixOf s.data

/-- The hard-coded pool `additionalFactors` of
`getRiskAssessment` (server/controllers/scanController.js). -/
def additionalFactors : List String :=
  ["Anatomical variants detected",
   "Surgical approach complexity: moderate",
   "Patient age factor considered",
   "Previous surgical history noted",
   "Instrument accessibility evaluated"]

/-- `if (!riskFactors.includes(factor)) riskFactors.push(factor)`. -/
def pushUnique (l : List String) (x : String) : List String :=
  if l.contains x then l else l ++ [x]

/-- The `for (let i = 0; i < numFactors; i++)` loop of `getRiskAssessment`:
each iteration draws `Math.random()` (stream position `i`), indexes
`additionalFactors[Math.floor(r * additionalFactors.length)]` and pushes the
factor if not already present. -/
def addRandomFactors (rand : Rand) (i : Nat) : Nat → List String → List String
  | 0, l => l
  | n + 1, l =>
      let idx : Nat := (⌊rand i * (additionalFactors.length : ℚ)⌋).toNat
      let factor := additionalFactors.getD idx ""
      addRandomFactors rand (i + 1) n (pushUnique l factor)

/-- The `if/else if` chain of `getRiskAssessment` that dispatches on the scan
type ("CT" / "MRI" / "X-Ray", anything else falls through).  Returns the
accumulated risk factors, the risk level, the internal confidence value, and
the number of `Math.random()` draws consumed. -/
def scanTypeBranch (scanType fileName : String) (fileSize : Nat) (rand : Rand) :
    List String × String × ℚ × Nat :=
  if scanType = "CT" then
    let hires : List String × ℚ :=
      if fileSize > 10 * 1024 * 1024 then
        (["High resolution CT detected"], 85/100 + 5/100)
      else ([], 85/100)
    if strIncludes fileName "brain" || strIncludes fileName "head" ||
        strIncludes fileName "cranial" then
      let fs := hires.1 ++ ["Cranial region detected"]
      if rand 0 > 6/10 then
        (fs ++ ["Critical vessel proximity detected",
                "Tumor within 2mm of major blood vessel"], "high", hires.2, 1)
      else if rand 1 > 4/10 then
        (fs ++ ["Moderate vessel proximity"], "medium", hires.2, 2)
      else (fs, "low", hires.2, 2)
    else (hires.1, "low", hires.2, 0)
  else if scanType = "MRI" then
    if rand 0 > 7/10 then
      (["Soft tissue analysis completed", "Tissue density variations detected"],
        "medium", 85/100 + 1/10, 1)
    else (["Soft tissue analysis completed"], "low", 85/100 + 1/10, 1)
  else if scanType = "X-Ray" then
    (["Bone structure analysis completed"], "low", 85/100, 0)
  else ([], "low", 85/100, 0)

/-- The object returned by `getRiskAssessment`: `level`, `details`, `factors`,
`recommendations`, the returned `confidence` (which the source sets from
`aiInfo.confidence`), the `aiInfo` fields and the `scanInfo` fields. -/
structure RiskAssessment where
  level : String
  details : String
  factors : List String
  recommendations : List String
  confidence : ℚ
  aiProcessingTime : ℤ
  aiConfidence : ℚ
  modelVersion : String
  scanInfoType : String
  scanInfoFileSize : Nat
  scanInfoFileName : String
deriving DecidableEq, Repr

/-- `const fileSize = file ? file.size : 0`. -/
def riskFileSize (file : Option UploadedFile) : Nat :=
  match file with | some f => f.size | none => 0

/-- `const fileName = file ? file.originalname.toLowerCase() : ""`. -/
def riskFileName (file : Option UploadedFile) : String :=
  match file with | some f => strToLower f.originalname | none => ""

/-- `getRiskAssessment(scanType, file)` from
server/controllers/scanController.js, with the `Math.random()` stream made
explicit.  The branch on scan type is `scanTypeBranch`; afterwards the
small-file adjustment runs, 1–2 random factors from `additionalFactors` are
pushed, the `switch (riskLevel)` fills `details`/`recommendations`, and the
result carries `confidence: aiInfo.confidence` where `aiInfo.confidence` is
the literal `50`. -/
def getRiskAssessment (scanType : String) (file : Option UploadedFile)
    (rand : Rand) : RiskAssessment :=
  let fileSize : Nat := riskFileSize file
  let fileName : String := riskFileName file
  let branch := scanTypeBranch scanType fileName fileSize rand
  let riskLevel := branch.2.1
  let confidence := branch.2.2.1
  let i0 := branch.2.2.2
  let confidence := if fileSize < 1024 * 1024 then confidence - 15/100 else confidence
  let riskFactors :=
    if fileSize < 1024 * 1024 then
      branch.1 ++ ["Lower resolution may affect accuracy"]
    else branch.1
  let numFactors : Nat := (⌊rand i0 * 2⌋ + 1).toNat
  let riskFactors := addRandomFactors rand (i0 + 1) numFactors riskFactors
  let i1 := i0 + 1 + numFactors
  let dr : String × List String :=
    if riskLevel = "high" then
      ("Critical risk factors identified requiring immediate attention. " ++
       "Major blood vessels detected within surgical corridor. " ++
       "Recommend specialized surgical team and advanced monitoring.",
       ["Schedule pre-operative consultation",
        "Consider minimally invasive approach",
        "Prepare for potential complications",
        "Ensure emergency protocols are ready"])
    else if riskLevel = "medium" then
      ("Moderate risk factors present requiring careful planning. " ++
       "Standard surgical precautions recommended with enhanced monitoring.",
       ["Review surgical approach options",
        "Prepare backup procedures",
        "Standard monitoring protocols"])
    else if riskLevel = "low" then
      ("No significant risk factors detected. " ++
       "Proceed with standard surgical protocols and routine monitoring.",
       ["Follow standard surgical procedures",
        "Routine post-operative care",
        "Regular follow-up scheduling"])
    else ("", [])
  let _unusedInternalConfidence := confidence
  { level := riskLevel
    details := dr.1
    factors := riskFactors
    recommendations := dr.2
    confidence := 50
    aiProcessingTime := ⌊rand i1 * 3000⌋ + 500
    aiConfidence := 50
    modelVersion := "SurgicalAI v2.1.0"
    scanInfoType := scanType
    scanInfoFileSize := fileSize
    scanInfoFileName := fileName }

/-- The risk level computed by the scan-type branch is always one of the three
literals the code assigns. -/
theorem scanTypeBranch_level_mem (scanType fileName : String) (fileSize : Nat)
    (rand : Rand) :
    (scanTypeBranch scanType fileName fileSize rand).2.1 ∈
      ["low", "medium", "high"] := by
  unfold scanTypeBranch
  repeat' split
  all_goals simp

/-- The level field of the whole assessment is the branch level. -/
theorem getRiskAssessment_level (scanType : String) (file : Option UploadedFile)
    (rand : Rand) :
    (getRiskAssessment scanType file rand).level =
      (scanTypeBranch scanType (riskFileName file) (riskFileSize file)
        rand).2.1 := by
  unfold getRiskAssessment
  rfl

/-- The risk level returned by `getRiskAssessment` is one of the three
enumerated strings. -/
theorem getRiskAssessment_level_mem (scanType : String)
    (file : Option UploadedFile) (rand : Rand) :
    (getRiskAssessment scanType file rand).level ∈ ["low", "medium", "high"] := by
  rw [getRiskAssessment_level]
  exact scanTypeBranch_level_mem ..

/-- The branch only yields "high" in the CT/cranial-filename arm. -/
theorem scanTypeBranch_high (scanType fileName : String) (fileSize : Nat)
    (rand : Rand)
    (h : (scanTypeBranch scanType fileName fileSize rand).2.1 = "high") :
    scanType = "CT" ∧
      (strIncludes fileName "brain" || strIncludes fileName "head" ||
        strIncludes fileName "cranial") = true := by
  unfold scanTypeBranch at h
  repeat' split at h
  all_goals simp_all

/-- A row of the SQLite `scans` table (config/db.js): `id` is the
AUTOINCREMENT primary key; the remaining columns as created by
`initializeDatabase`. -/
structure Scan where
  id : Nat
  patient_name : String
  scan_type : String
  risk_level : String
  status : String
  date : String
  uploaded_by : String
  notes : String
  file_path : String
deriving DecidableEq, Repr

/-- The database state the scan routes touch: the rows of `scans`. -/
abbrev ScanDB := List Scan

/-- SQLite AUTOINCREMENT: the id assigned to a newly inserted row is larger
than every id ever used; with rows never reused here, one more than the
largest existing id. -/
def nextId (db : ScanDB) : Nat :=
  (db.map (·.id)).foldr Nat.max 0 + 1

/-- The row shape `GET /api/scans` selects (all columns except
`file_path`). -/
structure ScanListRow where
  id : Nat
  patient_name : String
  scan_type : String
  risk_level : String
  status : String
  date : String
  uploaded_by : String
  notes : String
deriving DecidableEq, Repr

/-- The projection applied by the `SELECT` of `GET /api/scans`. -/
def toListRow (s : Scan) : ScanListRow :=
  { id := s.id, patient_name := s.patient_name, scan_type := s.scan_type
    risk_level := s.risk_level, status := s.status, date := s.date
    uploaded_by := s.uploaded_by, notes := s.notes }

/-- `ORDER BY date DESC`: a descending sort on the text `date` column. -/
def dateDesc (a b : Scan) : Prop := b.date ≤ a.date

instance : DecidableRel dateDesc := fun a b => by
  unfold dateDesc; infer_instance

/-- `GET /api/scans`: `SELECT id, patient_name, scan_type, risk_level,
status, date, uploaded_by, notes FROM scans ORDER BY date DESC`, answered
with status 200 and the row array. -/
def getScansRoute (db : ScanDB) : Nat × List ScanListRow :=
  (200, (db.insertionSort dateDesc).map toListRow)

/-- `GET /api/stats`, `totalScans` field: `SELECT COUNT(*) as count FROM
scans`. -/
def statsTotalScans (db : ScanDB) : Nat := db.length

/-- `SELECT ... FROM scans WHERE id = ?` through `getQuery`: the first row
whose id matches, if any. -/
def findScan (db : ScanDB) (id : Nat) : Option Scan :=
  db.find? (fun s => s.id = id)

/-- `GET /api/scans/:id`: 404 with no row when the scan does not exist,
otherwise 200 with the row. -/
def getScanByIdRoute (db : ScanDB) (id : Nat) : Nat × Option Scan :=
  match findScan db id with
  | none => (404, none)
  | some s => (200, some s)

/-- The MIME types multer's `fileFilter` accepts outright
(server/index.js). -/
def allowedTypes : List String := ["image/jpeg", "image/png", "image/gif"]

/-- multer's `fileFilter`: accept when the MIME type is an allowed image
type or the lower-cased original name ends with ".dcm". -/
def fileFilterAccepts (f : UploadedFile) : Bool :=
  allowedTypes.contains f.mimetype || strEndsWith (strToLower f.originalname) ".dcm"

/-- What `upload.single('scan')` does with the (optional) attached file
before the route handler runs: a file failing `fileFilter` aborts with the
plain `Error` built in server/index.js; a file larger than the 50MB
`limits.fileSize` aborts with a `MulterError` of code LIMIT_FILE_SIZE;
otherwise the handler runs with `req.file` set. -/
inductive UploadOutcome where
  | rejectedType
  | rejectedSize
  | accepted (file : Option UploadedFile)
deriving DecidableEq, Repr

/-- multer middleware on `POST /api/scans`. -/
def multerSingle (file : Option UploadedFile) : UploadOutcome :=
  match file with
  | none => .accepted none
  | some f =>
      if fileFilterAccepts f = false then .rejectedType
      else if f.size > 50 * 1024 * 1024 then .rejectedSize
      else .accepted (some f)

/-- The JSON answer of `POST /api/scans` (plus the error-middleware answers
for multer failures): HTTP status, the new scan id and the risk assessment
when created. -/
structure PostScanResponse where
  status : Nat
  scanId : Option Nat
  riskAssessment : Option RiskAssessment
deriving DecidableEq, Repr

/-- `POST /api/scans` end to end: multer, the emptiness checks on
`patientName`/`scanType`/`req.file`, `getRiskAssessment`, the INSERT (status
'completed', notes from the assessment details, date/file path from the
clock parameters `nowMs`/`nowIso`), and the 201 response.  A `fileFilter`
rejection reaches the generic error middleware (the error is not a
`MulterError`), which answers 500; a size rejection is a `MulterError` and is
answered 400. -/
def postScansRoute (db : ScanDB) (patientName scanType : String)
    (file : Option UploadedFile) (rand : Rand) (nowMs : Nat) (nowIso : String) :
    PostScanResponse × ScanDB :=
  match multerSingle file with
  | .rejectedType => ({ status := 500, scanId := none, riskAssessment := none }, db)
  | .rejectedSize => ({ status := 400, scanId := none, riskAssessment := none }, db)
  | .accepted f =>
      if patientName = "" then
        ({ status := 400, scanId := none, riskAssessment := none }, db)
      else if scanType = "" then
        ({ status := 400, scanId := none, riskAssessment := none }, db)
      else
        match f with
        | none => ({ status := 400, scanId := none, riskAssessment := none }, db)
        | some theFile =>
            let ra := getRiskAssessment scanType (some theFile) rand
            let filePath := "uploads/" ++ toString nowMs ++ "_" ++ theFile.originalname
            let id := nextId db
            let row : Scan :=
              { id := id, patient_name := patientName, scan_type := scanType
                risk_level := ra.level, status := "completed", date := nowIso
                uploaded_by := "Dr. Smith", notes := ra.details
                file_path := filePath }
            ({ status := 201, scanId := some id, riskAssessment := some ra },
              db ++ [row])

/-- `POST /api/scans/:id/status`: 400 on a status outside the three-valued
enum, otherwise `UPDATE scans SET status = ? WHERE id = ?` and 200 — also
when no row matches (`UPDATE` of zero rows is still success). -/
def updateStatusRoute (db : ScanDB) (id : Nat) (status : String) :
    Nat × ScanDB :=
  if (["pending", "completed", "failed"].contains status) = false then
    (400, db)
  else
    (200, db.map (fun s => if s.id = id then { s with status := status } else s))

/-- A row of the `scan_annotations` table (created and seeded by
config/db.js, never read or written by any route). -/
structure AnnRow where
  id : Nat
  scan_id : Nat
  position_x : ℚ
  position_y : ℚ
  position_z : ℚ
  note : String
  type : String
  created_by : String
deriving DecidableEq, Repr

/-- The echo answer of `POST /api/annotations`. -/
structure PostAnnResponse where
  status : Nat
  id : String
  scanId : Nat
  position : ℚ × ℚ × ℚ
  note : String
  type : String
deriving DecidableEq, Repr

/-- `POST /api/annotations`: acknowledges with 201, an id built from
`Date.now()`, and the submitted fields echoed back; the
`scan_annotations` table is left untouched. -/
def postAnnRoute (annDb : List AnnRow) (scanId : Nat) (position : ℚ × ℚ × ℚ)
    (note : String) (type : String) (nowMs : Nat) :
    PostAnnResponse × List AnnRow :=
  ({ status := 201, id := "ann-" ++ toString nowMs, scanId := scanId
     position := position, note := note, type := type }, annDb)

/-- `GET /api/annotations/:scanId`: always 200 with the empty array. -/
def getAnnRoute (annDb : List AnnRow) (scanId : Nat) : Nat × List AnnRow :=
  (200, [])

/-- A sample scan row (the first seeded row of config/db.js), used for
concrete instantiations. -/
def demoScan : Scan :=
  { id := 1, patient_name := "John Doe", scan_type := "CT"
    risk_level := "high", status := "completed"
    date := "2024-01-15 10:30:00", uploaded_by := "Dr. Smith"
    notes := "Cranial CT showing concerning mass near temporal lobe"
    file_path := "" }

/-- C3: for every scan type and every file argument (and every random
stream), the assessment returned by `getRiskAssessment` has its `confidence`
field equal to 50 — the generator hard-codes `aiInfo.confidence = 50` and
returns that, ignoring the internally computed confidence value. -/
theorem c3_confidence_hardcoded_50 (scanType : String)
    (file : Option UploadedFile) (rand : Rand) :
    (getRiskAssessment scanType file rand).confidence = 50 := rfl

/-- C1 fails as stated: a request with non-empty patient name "John Doe",
non-empty scan type "CT" and an attached 1000-byte file (well under 50MB)
named "notes.txt" of MIME type "text/plain" is rejected by multer's
`fileFilter`, and the resulting plain `Error` makes the generic error
middleware answer 500, not 201. -/
theorem c1_counterexample :
    "John Doe" ≠ "" ∧ "CT" ≠ "" ∧
    (1000 : Nat) < 50 * 1024 * 1024 ∧
    (postScansRoute [] "John Doe" "CT"
        (some { originalname := "notes.txt", mimetype := "text/plain", size := 1000 })
        (fun _ => 0) 0 "").1.status = 500 := by
  refine ⟨by decide, by decide, by decide, by decide⟩

/-- C1 (amended): for every upload whose body has a non-empty patientName, a
non-empty scanType, and an attached file of size under 50MB that passes the
upload filter (image/jpeg, image/png or image/gif MIME type, or a name
ending in ".dcm"), POST /api/scans answers 201 and the returned
riskAssessment.level is one of "low", "medium", "high". -/
theorem c1_valid_upload_201 (db : ScanDB) (patientName scanType : String)
    (file : UploadedFile) (rand : Rand) (nowMs : Nat) (nowIso : String)
    (hpn : patientName ≠ "") (hst : scanType ≠ "")
    (hsize : file.size < 50 * 1024 * 1024)
    (htype : fileFilterAccepts file = true) :
    (postScansRoute db patientName scanType (some file) rand nowMs nowIso).1.status = 201 ∧
    ∃ ra, (postScansRoute db patientName scanType (some file) rand nowMs
        nowIso).1.riskAssessment = some ra ∧ ra.level ∈ ["low", "medium", "high"] := by
  have hnot : ¬ (file.size > 50 * 1024 * 1024) := by omega
  have hmulter : multerSingle (some file) = .accepted (some file) := by
    unfold multerSingle
    simp [htype, hnot]
  refine ⟨?_, getRiskAssessment scanType (some file) rand, ?_,
      getRiskAssessment_level_mem ..⟩ <;>
    · unfold postScansRoute
      rw [hmulter]
      simp [hpn, hst]

/-- Witness for C1 (amended) at a concrete valid upload. -/
theorem c1_valid_upload_201_witness :
    (postScansRoute [] "Test Patient" "CT"
        (some { originalname := "scan.png", mimetype := "image/png", size := 2000000 })
        (fun _ => 0) 0 "2024-01-15").1.status = 201 ∧
    ∃ ra, (postScansRoute [] "Test Patient" "CT"
        (some { originalname := "scan.png", mimetype := "image/png", size := 2000000 })
        (fun _ => 0) 0 "2024-01-15").1.riskAssessment = some ra ∧
      ra.level ∈ ["low", "medium", "high"] :=
  c1_valid_upload_201 [] "Test Patient" "CT"
    { originalname := "scan.png", mimetype := "image/png", size := 2000000 }
    (fun _ => 0) 0 "2024-01-15"
    (by decide) (by decide) (by decide) (by decide)

/-- C2: over the same database state, the `totalScans` count of
GET /api/stats equals the length of the array GET /api/scans returns (the
COUNT(*) of the scans table versus the full, date-sorted row listing). -/
theorem c2_totalScans_eq_scans_length (db : ScanDB) :
    statsTotalScans db = (getScansRoute db).2.length := by
  unfold statsTotalScans getScansRoute
  simp [List.length_insertionSort]

/-- C4: GET /api/scans/:id answers 404 (with no record) for every id no row
of the scans table carries, and 200 with the row for every id that matches
one. -/
theorem c4_getScanById_spec (db : ScanDB) (id : Nat) :
    ((∀ s ∈ db, s.id ≠ id) → getScanByIdRoute db id = (404, none)) ∧
    (∀ s, findScan db id = some s → getScanByIdRoute db id = (200, some s)) := by
  constructor
  · intro h
    have hfind : findScan db id = none := by
      unfold findScan
      rw [List.find?_eq_none]
      intro s hs
      simp [h s hs]
    unfold getScanByIdRoute
    rw [hfind]
  · intro s hs
    unfold getScanByIdRoute
    rw [hs]

/-- Witness for C4: over a one-row table, id 2 is missing (404) and id 1 is
present (200 with the row). -/
theorem c4_getScanById_spec_witness :
    getScanByIdRoute [demoScan] 2 = (404, none) ∧
    getScanByIdRoute [demoScan] 1 = (200, some demoScan) :=
  ⟨(c4_getScanById_spec [demoScan] 2).1 (by decide),
   (c4_getScanById_spec [demoScan] 1).2 demoScan (by decide)⟩

/-- C5: POST /api/annotations always answers 201 echoing the submitted
scanId, position, note and type while leaving the persisted annotation table
unchanged, and GET /api/annotations/:scanId always answers 200 with the
empty array, whatever was POSTed before. -/
theorem c5_ann_routes_are_stubs (annDb : List AnnRow) (scanId : Nat)
    (position : ℚ × ℚ × ℚ) (note ty : String) (nowMs : Nat) :
    (postAnnRoute annDb scanId position note ty nowMs).1.status = 201 ∧
    (postAnnRoute annDb scanId position note ty nowMs).1.scanId = scanId ∧
    (postAnnRoute annDb scanId position note ty nowMs).1.position = position ∧
    (postAnnRoute annDb scanId position note ty nowMs).1.note = note ∧
    (postAnnRoute annDb scanId position note ty nowMs).1.type = ty ∧
    (postAnnRoute annDb scanId position note ty nowMs).2 = annDb ∧
    getAnnRoute annDb scanId = (200, []) :=
  ⟨rfl, rfl, rfl, rfl, rfl, rfl, rfl⟩

/-- C6: POST /api/scans/:id/status answers 400 and leaves every scan
unchanged when the submitted status is outside {"pending", "completed",
"failed"}, and answers 200 when it is one of the three — for every id,
matching a row or not (the zero-row UPDATE still succeeds). -/
theorem c6_updateStatus_spec (db : ScanDB) (id : Nat) (status : String) :
    (status ∉ ["pending", "completed", "failed"] →
      updateStatusRoute db id status = (400, db)) ∧
    (status ∈ ["pending", "completed", "failed"] →
      (updateStatusRoute db id status).1 = 200) := by
  constructor
  · intro h
    have hc : (["pending", "completed", "failed"].contains status) = false := by
      simpa using h
    unfold updateStatusRoute
    rw [hc]
    simp
  · intro h
    have hc : (["pending", "completed", "failed"].contains status) = true := by
      simpa using h
    unfold updateStatusRoute
    rw [hc]
    simp

/-- Witness for C6: "bogus" is rejected with 400 leaving the table intact;
"failed" is accepted with 200 — also on id 7 which matches no row. -/
theorem c6_updateStatus_spec_witness :
    updateStatusRoute [demoScan] 1 "bogus" = (400, [demoScan]) ∧
    (updateStatusRoute [demoScan] 7 "failed").1 = 200 :=
  ⟨(c6_updateStatus_spec [demoScan] 1 "bogus").1 (by decide),
   (c6_updateStatus_spec [demoScan] 7 "failed").2 (by decide)⟩

/-- C10: for every file, scan type "X-Ray" deterministically yields risk
level "low"; and a "high" level is only reachable for scan type "CT" with a
(lower-cased) file name containing "brain", "head" or "cranial" — so the
level is not uniformly random over the three values for all inputs. -/
theorem c10_xray_low_high_only_ct_cranial (scanType : String)
    (file : Option UploadedFile) (rand : Rand) :
    (getRiskAssessment "X-Ray" file rand).level = "low" ∧
    ((getRiskAssessment scanType file rand).level = "high" →
      scanType = "CT" ∧
        (strIncludes (riskFileName file) "brain" ||
         strIncludes (riskFileName file) "head" ||
         strIncludes (riskFileName file) "cranial") = true) := by
  constructor
  · rw [getRiskAssessment_level]
    rfl
  · intro h
    rw [getRiskAssessment_level] at h
    exact scanTypeBranch_high _ _ _ _ h

/-- Witness for C10 at concrete inputs: an X-Ray upload comes out "low", and
a CT upload named "brain_scan.dcm" with first random draw 9/10 comes out
"high", exhibiting the implication's premise and conclusion. -/
theorem c10_xray_low_high_only_ct_cranial_witness :
    (getRiskAssessment "X-Ray"
        (some { originalname := "chest.png", mimetype := "image/png", size := 2000000 })
        (fun _ => 0)).level = "low" ∧
    ("CT" = "CT" ∧
      (strIncludes (riskFileName
          (some { originalname := "brain_scan.dcm", mimetype := "image/png", size := 2000000 })) "brain" ||
       strIncludes (riskFileName
          (some { originalname := "brain_scan.dcm", mimetype := "image/png", size := 2000000 })) "head" ||
       strIncludes (riskFileName
          (some { originalname := "brain_scan.dcm", mimetype := "image/png", size := 2000000 })) "cranial") = true) :=
  ⟨(c10_xray_low_high_only_ct_cranial "X-Ray"
      (some { originalname := "chest.png", mimetype := "image/png", size := 2000000 })
      (fun _ => 0)).1,
   (c10_xray_low_high_only_ct_cranial "CT"
      (some { originalname := "brain_scan.dcm", mimetype := "image/png", size := 2000000 })
      (fun _ => 9/10)).2 (by
        rw [getRiskAssessment_level]
        have hb : strIncludes (riskFileName
            (some { originalname := "brain_scan.dcm", mimetype := "image/png", size := 2000000 }))
            "brain" = true := by decide
        simp only [scanTypeBranch]
        norm_num [hb, riskFileSize])⟩

/-- The client-side `User` object of the `AuthContext`
(src/context/AuthContext.tsx). -/
structure User where
  id : String
  name : String
  role : String
  email : String
deriving DecidableEq, Repr

/-- The `login(email, password)` function of the `AuthContext`: after the
simulated delay it always stores a user with id "1", name "Dr. Smith", role
"surgeon" — and the email set to the `email` argument. -/
def login (email password : String) : User :=
  { id := "1", name := "Dr. Smith", role := "surgeon", email := email }

/-- The user object the `autoLogin` effect stores on mount. -/
def autoLoginUser : User :=
  { id := "1", name := "Dr. Smith", role := "surgeon"
    email := "dr.smith@hospital.com" }

/-- C7 fails as stated: two invocations of `login` with different emails
(same password) produce different user objects — the `email` field of the
stored user echoes the argument, so the produced user is not independent of
the credentials supplied. -/
theorem c7_counterexample :
    login "alice@hospital.com" "pw" ≠ login "bob@hospital.com" "pw" := by
  decide

/-- C7 (amended): every invocation of `login` produces a user with the fixed
demo identity — id "1", name "Dr. Smith", role "surgeon" — independent of
the password; only the `email` field varies, echoing the email argument
(and `autoLogin` stores that same identity with the fixed demo email). -/
theorem c7_login_fixed_identity (email1 pw1 email2 pw2 : String) :
    (login email1 pw1).id = "1" ∧
    (login email1 pw1).name = "Dr. Smith" ∧
    (login email1 pw1).role = "surgeon" ∧
    (login email1 pw1).email = email1 ∧
    login email1 pw1 = login email1 pw2 ∧
    ((login email1 pw1).id, (login email1 pw1).name, (login email1 pw1).role) =
      ((login email2 pw2).id, (login email2 pw2).name, (login email2 pw2).role) ∧
    (autoLoginUser.id, autoLoginUser.name, autoLoginUser.role) =
      ((login email1 pw1).id, (login email1 pw1).name, (login email1 pw1).role) :=
  ⟨rfl, rfl, rfl, rfl, rfl, rfl, rfl⟩

/-- `totalSlices` of the medical slice viewer (a constant 12). -/
def totalSlices : Nat := 12

/-- The viewer state the five control handlers read and write:
`currentSlice` and `zoom`. -/
structure ViewState where
  currentSlice : ℤ
  zoom : ℚ
deriving DecidableEq, Repr

/-- `useState(0)` / `useState(1)`: the initial viewer state. -/
def initView : ViewState := { currentSlice := 0, zoom := 1 }

/-- The five user operations of the slice viewer. -/
inductive ViewerOp where
  | nextSlice | prevSlice | zoomIn | zoomOut | resetView
deriving DecidableEq, Repr

/-- The state updates of `nextSlice` / `prevSlice` / `zoomIn` / `zoomOut` /
`resetView` in MedicalSliceViewer.tsx: clamp with `Math.min`/`Math.max`
(factors 1.2 = 12/10), and `resetView` recentres to slice
`Math.floor(totalSlices / 2)` at zoom 1. -/
def stepView : ViewerOp → ViewState → ViewState
  | .nextSlice, s => { s with currentSlice := min (s.currentSlice + 1) ((totalSlices : ℤ) - 1) }
  | .prevSlice, s => { s with currentSlice := max (s.currentSlice - 1) 0 }
  | .zoomIn, s => { s with zoom := min (s.zoom * (12/10)) 3 }
  | .zoomOut, s => { s with zoom := max (s.zoom / (12/10)) (1/2) }
  | .resetView, _ => { currentSlice := (totalSlices : ℤ) / 2, zoom := 1 }

/-- The state invariant of C9: the slice index stays within the 12 simulated
slices and the zoom within [0.5, 3]. -/
def ViewInv (s : ViewState) : Prop :=
  0 ≤ s.currentSlice ∧ s.currentSlice ≤ (totalSlices : ℤ) - 1 ∧
    (1/2 : ℚ) ≤ s.zoom ∧ s.zoom ≤ 3

/-- Each single viewer operation preserves the invariant. -/
theorem stepView_preserves (op : ViewerOp) (s : ViewState) (h : ViewInv s) :
    ViewInv (stepView op s) := by
  have ht : (totalSlices : ℤ) = 12 := rfl
  obtain ⟨h1, h2, h3, h4⟩ := h
  cases op with
  | nextSlice =>
      exact ⟨by dsimp [stepView]; omega, by dsimp [stepView]; omega, h3, h4⟩
  | prevSlice =>
      exact ⟨by dsimp [stepView]; omega, by dsimp [stepView]; omega, h3, h4⟩
  | zoomIn =>
      refine ⟨h1, h2, ?_, ?_⟩
      · dsimp [stepView]
        have hz : (1/2 : ℚ) ≤ s.zoom * (12/10) := by linarith
        exact le_min hz (by norm_num)
      · dsimp [stepView]
        exact min_le_right _ _
  | zoomOut =>
      refine ⟨h1, h2, ?_, ?_⟩
      · dsimp [stepView]
        exact le_max_right _ _
      · dsimp [stepView]
        have hd : s.zoom / (12/10) ≤ 3 := by
          rw [div_le_iff₀ (by norm_num)]
          linarith
        exact max_le hd (by norm_num)
  | resetView =>
      exact ⟨by dsimp [stepView]; omega, by dsimp [stepView]; omega,
        by dsimp [stepView]; norm_num, by dsimp [stepView]; norm_num⟩

/-- Running a sequence of viewer operations from the initial state. -/
def runView (ops : List ViewerOp) : ViewState :=
  ops.foldl (fun s op => stepView op s) initView

/-- C9: starting from the initial viewer state (slice 0, zoom 1), every
sequence of nextSlice / prevSlice / zoomIn / zoomOut / resetView operations
keeps `currentSlice` in [0, totalSlices − 1] = [0, 11] and `zoom` in
[0.5, 3]. -/
theorem c9_viewer_invariant (ops : List ViewerOp) : ViewInv (runView ops) := by
  have gen : ∀ (l : List ViewerOp) (s : ViewState), ViewInv s →
      ViewInv (l.foldl (fun s op => stepView op s) s) := by
    intro l
    induction l with
    | nil => exact fun s hs => hs
    | cons op t ih => exact fun s hs => ih _ (stepView_preserves op s hs)
  exact gen ops initView
    ⟨by norm_num [initView], by norm_num [initView, totalSlices],
     by norm_num [initView], by norm_num [initView]⟩

/-- One canvas-2D drawing operation issued by the slice renderer: each
`beginPath`/shape/`fill`/`stroke` group of MedicalSliceViewer.tsx becomes one
abstract operation carrying its style and geometry.  The canvas is the fixed
400×400 one of the component. -/
inductive DrawOp where
  | fillRect (color : String) (x y w h : ℝ)
  | fillEllipse (color : String) (x y rx ry : ℝ)
  | fillStrokeEllipse (fill stroke : String) (lineWidth x y rx ry : ℝ)
  | strokeLine (color : String) (lineWidth x1 y1 x2 y2 : ℝ)
  | strokeEllipseDashed (color : String) (lineWidth dashOn dashOff x y rx ry : ℝ)
  | fillCircle (color : String) (x y r : ℝ)
  | strokeCircle (color : String) (lineWidth x y r : ℝ)

/-- The three overlay toggles of the slice viewer. -/
structure Overlays where
  ventricles : Bool
  vessels : Bool
  contours : Bool
deriving DecidableEq, Repr

/-- A stored viewer annotation record: owning slice, normalized [0,1]
coordinates, note text and severity tag. -/
structure SliceAnn where
  slice : Nat
  x : ℝ
  y : ℝ
  note : String
  type : String

/-- `drawBrainSlice(ctx, slice)`: three concentric tissue ellipses around the
canvas centre, radius `120 * zoom` modulated by
`sin(slice / totalSlices * π) * 0.3 + 0.7`, appended to the operations
already issued. -/
noncomputable def drawBrainSlice (zoom : ℝ) (slice : Nat) (ops : List DrawOp) :
    List DrawOp :=
  let baseRadius := 120 * zoom
  let radiusVariation :=
    Real.sin ((slice : ℝ) / (totalSlices : ℝ) * Real.pi) * 0.3 + 0.7
  let radius := baseRadius * radiusVariation
  ops ++
    [DrawOp.fillEllipse "#4a4a4a" 200 200 radius (radius * 0.9),
     DrawOp.fillEllipse "#6a6a6a" 200 200 (radius * 0.85) (radius * 0.75),
     DrawOp.fillEllipse "#8a8a8a" 200 200 (radius * 0.7) (radius * 0.6)]

/-- `drawVentricles(ctx, slice)`: the two lateral ventricles on slices 3–9
and the third ventricle on slices 4–8, in the blue fill/stroke style. -/
noncomputable def drawVentricles (zoom : ℝ) (slice : Nat) (ops : List DrawOp) :
    List DrawOp :=
  let baseSize := 30 * zoom
  let ops1 :=
    if 3 ≤ slice ∧ slice ≤ 9 then
      let ventricleSize := baseSize * (1 - |(slice : ℝ) - 6| / 6)
      ops ++
        [DrawOp.fillStrokeEllipse "rgba(59, 130, 246, 0.3)" "#3b82f6" 2
           (200 - 25 * zoom) (200 - 10 * zoom)
           (ventricleSize * 0.6) (ventricleSize * 0.4),
         DrawOp.fillStrokeEllipse "rgba(59, 130, 246, 0.3)" "#3b82f6" 2
           (200 + 25 * zoom) (200 - 10 * zoom)
           (ventricleSize * 0.6) (ventricleSize * 0.4)]
    else ops
  if 4 ≤ slice ∧ slice ≤ 8 then
    ops1 ++
      [DrawOp.fillStrokeEllipse "rgba(59, 130, 246, 0.3)" "#3b82f6" 2
         200 200 (baseSize * 0.3) (baseSize * 0.8)]
  else ops1

/-- `drawVessels(ctx, slice)`: six red radial lines of radius `80 * zoom`
from the centre at angles `i/6 * 2π` (the `slice` argument is unused in the
source too). -/
noncomputable def drawVessels (zoom : ℝ) (slice : Nat) (ops : List DrawOp) :
    List DrawOp :=
  ops ++ (List.range 6).map (fun i =>
    let angle := (i : ℝ) / 6 * Real.pi * 2
    let radius := 80 * zoom
    DrawOp.strokeLine "#ef4444" 2 200 200
      (200 + Real.cos angle * radius) (200 + Real.sin angle * radius))

/-- `drawContours(ctx, slice)`: the dashed green anatomical contour ellipse
(`slice` unused in the source too). -/
noncomputable def drawContours (zoom : ℝ) (slice : Nat) (ops : List DrawOp) :
    List DrawOp :=
  ops ++ [DrawOp.strokeEllipseDashed "#10b981" 1 5 5 200 200
    (140 * zoom) (130 * zoom)]

/-- The marker colour chosen per annotation severity. -/
def annColor (t : String) : String :=
  if t = "critical" then "#ef4444"
  else if t = "warning" then "#f59e0b"
  else "#3b82f6"

/-- `drawAnnotations(ctx)`: for each stored annotation whose slice matches
the current slice, a filled dot of radius 6 and a ring of radius 12 at the
denormalized position. -/
noncomputable def drawAnnotations (slice : Nat) (anns : List SliceAnn)
    (ops : List DrawOp) : List DrawOp :=
  ops ++ (anns.filter (fun a => a.slice = slice)).flatMap (fun a =>
    [DrawOp.fillCircle (annColor a.type) (a.x * 400) (a.y * 400) 6,
     DrawOp.strokeCircle (annColor a.type) 2 (a.x * 400) (a.y * 400) 12])

/-- `drawSlice()`: clear to the dark background, draw the brain slice, then
each enabled overlay in fixed order (ventricles, vessels, contours), then the
annotation markers when they are shown. -/
noncomputable def drawSlice (slice : Nat) (zoom : ℝ) (ov : Overlays)
    (showAnns : Bool) (anns : List SliceAnn) : List DrawOp :=
  let ops0 := [DrawOp.fillRect "#1a1a1a" 0 0 400 400]
  let ops1 := drawBrainSlice zoom slice ops0
  let ops2 := if ov.ventricles then drawVentricles zoom slice ops1 else ops1
  let ops3 := if ov.vessels then drawVessels zoom slice ops2 else ops2
  let ops4 := if ov.contours then drawContours zoom slice ops3 else ops3
  if showAnns then drawAnnotations slice anns ops4 else ops4

/-- The operation block `drawBrainSlice` contributes. -/
noncomputable def brainOps (zoom : ℝ) (slice : Nat) : List DrawOp :=
  drawBrainSlice zoom slice []

/-- The operation block `drawVentricles` contributes. -/
noncomputable def ventricleOps (zoom : ℝ) (slice : Nat) : List DrawOp :=
  drawVentricles zoom slice []

/-- The operation block `drawVessels` contributes. -/
noncomputable def vesselOps (zoom : ℝ) (slice : Nat) : List DrawOp :=
  drawVessels zoom slice []

/-- The operation block `drawContours` contributes. -/
noncomputable def contourOps (zoom : ℝ) (slice : Nat) : List DrawOp :=
  drawContours zoom slice []

/-- The marker block `drawAnnotations` contributes: exactly the stored
annotations whose slice matches the current one. -/
noncomputable def annMarkerOps (slice : Nat) (anns : List SliceAnn) : List DrawOp :=
  drawAnnotations slice anns []

theorem drawBrainSlice_eq_append (zoom : ℝ) (slice : Nat) (ops : List DrawOp) :
    drawBrainSlice zoom slice ops = ops ++ brainOps zoom slice := by
  simp [drawBrainSlice, brainOps]

theorem drawVentricles_eq_append (zoom : ℝ) (slice : Nat) (ops : List DrawOp) :
    drawVentricles zoom slice ops = ops ++ ventricleOps zoom slice := by
  unfold ventricleOps drawVentricles
  split <;> split <;> simp_all

theorem drawVessels_eq_append (zoom : ℝ) (slice : Nat) (ops : List DrawOp) :
    drawVessels zoom slice ops = ops ++ vesselOps zoom slice := by
  simp [drawVessels, vesselOps]

theorem drawContours_eq_append (zoom : ℝ) (slice : Nat) (ops : List DrawOp) :
    drawContours zoom slice ops = ops ++ contourOps zoom slice := by
  simp [drawContours, contourOps]

theorem drawAnnotations_eq_append (slice : Nat) (anns : List SliceAnn)
    (ops : List DrawOp) :
    drawAnnotations slice anns ops = ops ++ annMarkerOps slice anns := by
  simp [drawAnnotations, annMarkerOps]

/-- C8 fails as stated: two redraws with identical slice index (0), identical
overlay toggles (all on), identical annotation list (empty) — and identical
annotation visibility — but zooms 1 and 2 produce different operation
sequences: the redraw also depends on the zoom state. -/
theorem c8_counterexample :
    drawSlice 0 1 { ventricles := true, vessels := true, contours := true }
        true [] ≠
      drawSlice 0 2 { ventricles := true, vessels := true, contours := true }
        true [] := by
  intro h
  have h1 := congrArg (fun l => l[1]?) h
  simp [drawSlice, drawBrainSlice, drawVentricles, drawVessels, drawContours,
    drawAnnotations, DrawOp.fillEllipse.injEq] at h1
  norm_num [Real.sin_zero] at h1

/-- C8 (amended): the redraw is a pure function of the five state inputs it
reads — slice index, zoom, overlay toggles, annotation visibility, and the
annotation list — and emits, in fixed z-order: the background fill, the
tissue ellipses with radius modulated by `sin(slice/totalSlices · π)`, the
enabled overlays (ventricles, vessels, contours), then the markers of the
annotations whose slice matches the current slice. -/
theorem c8_drawSlice_structure (slice : Nat) (zoom : ℝ) (ov : Overlays)
    (showAnns : Bool) (anns : List SliceAnn) :
    drawSlice slice zoom ov showAnns anns =
      [DrawOp.fillRect "#1a1a1a" 0 0 400 400]
      ++ brainOps zoom slice
      ++ (if ov.ventricles then ventricleOps zoom slice else [])
      ++ (if ov.vessels then vesselOps zoom slice else [])
      ++ (if ov.contours then contourOps zoom slice else [])
      ++ (if showAnns then annMarkerOps slice anns else []) := by
  unfold drawSlice
  cases ov with
  | mk ventricles vessels contours =>
      cases ventricles <;> cases vessels <;> cases contours <;> cases showAnns <;>
        simp [drawBrainSlice_eq_append, drawVentricles_eq_append,
          drawVessels_eq_append, drawContours_eq_append,
          drawAnnotations_eq_append, List.append_assoc]

end SurgicalVision
